import Mathlib

/-!
Shallow embedding of the MinedMap chunk-decoding core (src/world/section.rs,
src/world/layer.rs, src/world/chunk.rs, src/util.rs) together with theorems
settling the frozen specification claims.

Conventions of the embedding:
* Rust `usize`/`u8`/`u32` values become `Nat`; `i32`/`i64` become `Int` with
  explicit two's-complement reinterpretation (`% 2^64`) where the code casts.
* `anyhow::Result<T>` becomes `Except String T` (the string is the error
  message passed to `bail!`/`context`).
* A Rust slice index that would panic out of bounds is modelled with `[·]?`
  (`Option`); a `none` result marks the panic.
-/

set_option maxRecDepth 100000

namespace MinedMap

/-- Constant from types.rs, quoted in the spec: blocks per chunk edge. -/
def BLOCKS_PER_CHUNK : Nat := 16

/-- Constant from types.rs, quoted in the spec: chunks per region edge. -/
def CHUNKS_PER_REGION : Nat := 32

/-- Constant from types.rs, quoted in the spec: log2 of BLOCKS_PER_CHUNK. -/
def BLOCK_BITS : Nat := 4

/-- Constant from types.rs, quoted in the spec: log2 of CHUNKS_PER_REGION. -/
def CHUNK_BITS : Nat := 5

/-- Reinterpretation of a signed 64-bit value (stored as `Int`) as the
unsigned 64-bit bit pattern, i.e. Rust's `as u64` cast. -/
def asU64 (x : Int) : Nat := (x % (2 ^ 64 : Int)).toNat

/-- Modelled from the spec: `SectionBlockCoords` lives in types.rs, which is
not part of the provided sources. Per spec §3, x, z, y each range over 0..15. -/
structure SectionBlockCoords where
  x : Nat
  z : Nat
  y : Nat
deriving DecidableEq

/-- Modelled from the spec: the contractual section-internal linear offset
`y·256 + z·16 + x` (spec §3; `coords.offset()` is defined in types.rs). -/
def SectionBlockCoords.offset (c : SectionBlockCoords) : Nat :=
  c.y * 256 + c.z * 16 + c.x

/-- Block-type flags consumed by the core (resource.rs is out of scope; the
two flags the core reads are Opaque and Water). `opaq` stands for the Opaque
flag. -/
inductive BlockFlag where
  | opaq : BlockFlag
  | water : BlockFlag
deriving DecidableEq

/-- A block type as the core sees it: just its two capability flags.
(The resource catalog's other data is never consumed by the claims' code.) -/
structure BlockType where
  opaq : Bool
  water : Bool
deriving DecidableEq

/-- `BlockType::is(flag)` from resource.rs, restricted to the two flags the
core consumes. -/
def BlockType.is (t : BlockType) (f : BlockFlag) : Bool :=
  match f with
  | .opaq => t.opaq
  | .water => t.water

/-- The block-type catalog `BlockTypes::get`: a name lookup that may fail. -/
def BlockTypes := String → Option BlockType

/-- Loop body of `palette_bits` (section.rs lines 17-28), written with
explicit fuel so that it is structurally recursive and kernel-reducible.
The fuel is only a recursion bound; `palette_bits` passes `max + 1 - min`,
which is enough for the loop to reach its `bits > max` exit. -/
def pbGo (len max : Nat) : Nat → Nat → Option Nat
  | fuel, bits =>
    if 1 <<< bits < len then
      if max < bits + 1 then none
      else
        match fuel with
        | 0 => none
        | f + 1 => pbGo len max f (bits + 1)
    else some bits

/-- `palette_bits(len, min, max)` from section.rs: starting at `min`,
increment `bits` while `1 << bits < len`; fail once `bits` would exceed
`max`. -/
def palette_bits (len min max : Nat) : Option Nat :=
  pbGo len max (max + 1 - min) min

example : palette_bits 1 4 12 = some 4 := by decide
example : palette_bits 16 4 12 = some 4 := by decide
example : palette_bits 17 4 12 = some 5 := by decide
example : palette_bits 4096 4 12 = some 12 := by decide
example : palette_bits 4097 4 12 = none := by decide
example : palette_bits 0 4 12 = some 4 := by decide
example : palette_bits 1 5 3 = some 5 := by decide

/-- Minecraft v1.13+ section block data (section.rs `SectionV1_13`).
The borrowed slice `&[i64]` becomes a `List Int`. -/
structure SectionV1_13 where
  block_states : Option (List Int)
  palette : List (Option BlockType)
  bits : Nat
  aligned_blocks : Bool
deriving DecidableEq

/-- `SectionV1_13::new` (section.rs lines 46-85). The deserialized palette
entries carry only their `name` field, so the palette parameter is a list of
names. Unknown names are logged (a side effect not modelled) and mapped to
`none`; they are not errors. -/
def SectionV1_13.new (data_version : Nat) (block_states : Option (List Int))
    (palette : List String) (block_types : BlockTypes) :
    Except String SectionV1_13 :=
  let aligned_blocks := 2529 ≤ data_version
  match palette_bits palette.length 4 12 with
  | none => .error "Unsupported block palette size"
  | some bits =>
    let expected_length :=
      if aligned_blocks then
        let blocks_per_word := 64 / bits
        (4096 + blocks_per_word - 1) / blocks_per_word
      else 64 * bits
    match block_states with
    | some ws =>
      if ws.length = expected_length then
        .ok ⟨some ws, palette.map block_types, bits, aligned_blocks⟩
      else .error "Invalid section block data"
    | none => .ok ⟨none, palette.map block_types, bits, aligned_blocks⟩

/-- `SectionV1_13::palette_index_at` (section.rs lines 88-114). A `none`
result marks an out-of-bounds slice index, which would panic in the source;
the theorems show it cannot happen for sections that passed construction. -/
def SectionV1_13.palette_index_at (s : SectionV1_13)
    (coords : SectionBlockCoords) : Option Nat :=
  match s.block_states with
  | none => some 0
  | some block_states =>
    let bits := s.bits
    let mask := (1 <<< bits) - 1
    let offset := coords.offset
    if s.aligned_blocks then
      let blocks_per_word := 64 / bits
      match block_states[offset / blocks_per_word]? with
      | none => none
      | some w => some ((asU64 w >>> ((offset % blocks_per_word) * bits)) &&& mask)
    else
      let bit_offset := offset * bits
      let word := bit_offset / 64
      let bit_shift := bit_offset % 64
      match block_states[word]? with
      | none => none
      | some w =>
        let tmp := asU64 w >>> bit_shift
        if 64 < bit_shift + bits then
          match block_states[word + 1]? with
          | none => none
          | some w2 =>
            some ((tmp ||| ((asU64 w2 <<< (64 - bit_shift)) % 2 ^ 64)) &&& mask)
        else some (tmp &&& mask)

/-- `Section::block_at` implementation for `SectionV1_13` (section.rs lines
117-125). Outer `none` again marks the panic of an out-of-bounds word read;
`Except.error` is the `context("Palette index out of bounds")` failure. -/
def SectionV1_13.block_at (s : SectionV1_13) (coords : SectionBlockCoords) :
    Option (Except String (Option BlockType)) :=
  match s.palette_index_at coords with
  | none => none
  | some index =>
    match s.palette[index]? with
    | some t => some (.ok t)
    | none => some (.error "Palette index out of bounds")

/-- Pre-1.13 section block data (section.rs `SectionV0`). The `block_types`
catalog reference is omitted: it is only consulted by `SectionV0::block_at`,
which no claim exercises. -/
structure SectionV0 where
  blocks : List Int
  data : List Int
deriving DecidableEq

/-- `SectionV0::new` (section.rs lines 137-152). -/
def SectionV0.new (blocks data : List Int) : Except String SectionV0 :=
  if blocks.length ≠ BLOCKS_PER_CHUNK * BLOCKS_PER_CHUNK * BLOCKS_PER_CHUNK then
    .error "Invalid section block data"
  else if data.length ≠ BLOCKS_PER_CHUNK * BLOCKS_PER_CHUNK * BLOCKS_PER_CHUNK / 2 then
    .error "Invalid section extra data"
  else .ok ⟨blocks, data⟩

/-- Raw pre-v1.18 biome data as deserialized (de.rs `BiomesV0`): either an
NBT int array or an NBT byte array. -/
inductive DeBiomesV0 where
  | intArray : List Int → DeBiomesV0
  | byteArray : List Int → DeBiomesV0
deriving DecidableEq

/-- Recognized pre-v1.18 biome shapes (section.rs `BiomesV0`); the
`biome_types` catalog reference is omitted (never consumed by the claims). -/
inductive BiomesV0 where
  | intArrayV15 : List Int → BiomesV0
  | intArrayV0 : List Int → BiomesV0
  | byteArray : List Int → BiomesV0
deriving DecidableEq

/-- `BiomesV0::new` (section.rs lines 231-249), with the source's constants
`N = BLOCKS_PER_CHUNK`, `MAXY = 256`, `BN = N >> 2`, `BMAXY = MAXY >> 2`. -/
def BiomesV0.new (biomes : Option DeBiomesV0) : Except String BiomesV0 :=
  let N := BLOCKS_PER_CHUNK
  let MAXY := 256
  let BN := N >>> 2
  let BMAXY := MAXY >>> 2
  match biomes with
  | some (.intArray data) =>
    if data.length = BN * BN * BMAXY then .ok (.intArrayV15 data)
    else if data.length = N * N then .ok (.intArrayV0 data)
    else .error "Invalid biome data"
  | some (.byteArray data) =>
    if data.length = N * N then .ok (.byteArray data)
    else .error "Invalid biome data"
  | none => .error "Invalid biome data"

/-- Section block light data (section.rs `BlockLight`). -/
structure BlockLight where
  light : Option (List Int)
deriving DecidableEq

/-- `BlockLight::new` (section.rs lines 256-264). -/
def BlockLight.new (block_light : Option (List Int)) : Except String BlockLight :=
  let N := BLOCKS_PER_CHUNK
  match block_light with
  | some bl =>
    if bl.length ≠ N * N * N / 2 then .error "Invalid section block light data"
    else .ok ⟨some bl⟩
  | none => .ok ⟨none⟩

/-- Legacy deserialized section variants (de.rs `SectionV0Variants`):
v1.13-shaped (`block_states` words and a palette of names), v0-shaped
(`blocks` bytes and `data` nibbles), or empty. -/
inductive DeSectionV0Variants where
  | v1_13 : List Int → List String → DeSectionV0Variants
  | v0 : List Int → List Int → DeSectionV0Variants
  | empty : DeSectionV0Variants
deriving DecidableEq

/-- One legacy deserialized section with its Y index and block light
(de.rs `SectionV0`). `sect` is the source's `section` field (renamed:
`section` is a Lean keyword). -/
structure DeLevelSection where
  y : Int
  sect : DeSectionV0Variants
  block_light : Option (List Int)
deriving DecidableEq

/-- Legacy deserialized level (de.rs `LevelV0`): the section list and the
chunk-level biome array. -/
structure DeLevelV0 where
  sections : List DeLevelSection
  biomes : Option DeBiomesV0
deriving DecidableEq

/-- The assembled chunk (chunk.rs `Chunk`), restricted to the legacy
variants produced by `Chunk::new_v0`. The `BTreeMap<SectionY, _>` section
maps become association lists built by `mapInsert`. -/
inductive Chunk where
  | v1_13 : List (Int × SectionV1_13 × BlockLight) → DeBiomesV0 → Chunk
  | v0 : List (Int × SectionV0 × BlockLight) → DeBiomesV0 → Chunk
  | empty : Chunk
deriving DecidableEq

/-- `BTreeMap::insert` on the association-list model: replace the value at
an existing key or append a new binding. (Key ordering is irrelevant to the
claims; only membership and emptiness are consumed.) -/
def mapInsert {α : Type} (k : Int) (v : α) : List (Int × α) → List (Int × α)
  | [] => [(k, v)]
  | (k0, v0) :: rest =>
    if k0 = k then (k, v) :: rest else (k0, v0) :: mapInsert k v rest

/-- The section loop of `Chunk::new_v0` (chunk.rs lines 117-159):
accumulates the v1.13-shaped and v0-shaped section maps, propagating
construction failures. (`with_context` annotations around the inner error
messages are not modelled.) -/
def buildMaps (data_version : Nat) (block_types : BlockTypes)
    (m13 : List (Int × SectionV1_13 × BlockLight))
    (m0 : List (Int × SectionV0 × BlockLight)) :
    List DeLevelSection →
    Except String
      (List (Int × SectionV1_13 × BlockLight) × List (Int × SectionV0 × BlockLight))
  | [] => .ok (m13, m0)
  | s :: rest =>
    match BlockLight.new s.block_light with
    | .error e => .error e
    | .ok bl =>
      match s.sect with
      | .v1_13 block_states palette =>
        match SectionV1_13.new data_version (some block_states) palette block_types with
        | .error e => .error e
        | .ok sec => buildMaps data_version block_types (mapInsert s.y (sec, bl) m13) m0 rest
      | .v0 blocks data =>
        match SectionV0.new blocks data with
        | .error e => .error e
        | .ok sec => buildMaps data_version block_types m13 (mapInsert s.y (sec, bl) m0) rest
      | .empty => buildMaps data_version block_types m13 m0 rest

/-- `Chunk::new_v0` (chunk.rs lines 112-180): build the two section maps,
then classify on their emptiness; the chunk-level biome array is demanded
only in the `V1_13` and `V0` outcomes. -/
def Chunk.new_v0 (data_version : Nat) (level : DeLevelV0)
    (block_types : BlockTypes) : Except String Chunk :=
  match buildMaps data_version block_types [] [] level.sections with
  | .error e => .error e
  | .ok (m13, m0) =>
    match m13.isEmpty, m0.isEmpty with
    | true, true => .ok .empty
    | false, true =>
      match level.biomes with
      | some b => .ok (.v1_13 m13 b)
      | none => .error "Invalid biome data"
    | true, false =>
      match level.biomes with
      | some b => .ok (.v0 m0 b)
      | none => .error "Invalid biome data"
    | false, false => .error "Mixed section versions"

/-- Modelled from the spec: the `Biome` resource type (resource.rs, not in
the provided sources) is only passed through by the scanner, so any
inhabited type with decidable equality serves. -/
def Biome := Nat
deriving DecidableEq

/-- `BlockHeight::new` (layer.rs lines 18-25): world-Y `section·16 + block`,
with the `i32` overflow checks of `checked_mul` / `checked_add_unsigned`.
The wrapped `i32` becomes a plain `Int` once the checks pass. -/
def BlockHeight.new (sectionY : Int) (block : Nat) : Except String Int :=
  if sectionY * (BLOCKS_PER_CHUNK : Int) < -(2 ^ 31) ∨
      2 ^ 31 ≤ sectionY * (BLOCKS_PER_CHUNK : Int) then
    .error "Block height out of bounds"
  else if 2 ^ 31 ≤ sectionY * (BLOCKS_PER_CHUNK : Int) + block then
    .error "Block height out of bounds"
  else .ok (sectionY * (BLOCKS_PER_CHUNK : Int) + block)

/-- One cell of the 16×16 top-layer output (layer.rs `BlockInfo`). -/
structure BlockInfo where
  block_type : Option BlockType
  depth : Option Int
deriving DecidableEq

instance : Inhabited BlockInfo := ⟨⟨none, none⟩⟩

/-- `BlockInfo::is_empty` (layer.rs line 39). -/
def BlockInfo.is_empty (e : BlockInfo) : Bool := e.block_type.isNone

/-- `BlockInfo::done` (layer.rs line 43). -/
def BlockInfo.done (e : BlockInfo) : Bool := e.depth.isSome

/-- `BlockInfo::fill` (layer.rs lines 47-63), returning the updated cell
together with the source's boolean result. Non-opaque blocks change
nothing; opaque blocks set `block_type` if unset; water then stops without
a depth; otherwise `depth` is set and the cell is done. -/
def BlockInfo.fill (e : BlockInfo) (y : Int) (t : BlockType) : BlockInfo × Bool :=
  if !t.is .opaq then (e, false)
  else
    let e1 := if e.block_type.isNone then { e with block_type := some t } else e
    if t.is .water then (e1, false)
    else ({ e1 with depth := some y }, true)

/-- Modelled from the spec: one item of the chunk's section iterator
(spec §4.7 — ordered `(SectionY, section, biomes, block_light)` tuples;
the iterator item shape with biome and light accessors comes from chunk.rs
code not present in the provided sources). Each accessor is the
polymorphic per-section method the scanner calls. -/
structure SectionItem where
  block_at : SectionBlockCoords → Except String (Option BlockType)
  biome_at : Int → SectionBlockCoords → Except String (Option Biome)
  block_light_at : SectionBlockCoords → Nat

/-- The three 16×16 output arrays of one chunk (layer.rs `LayerData`),
indexed linearly by `z·16 + x`. -/
structure LayerData where
  blocks : List BlockInfo
  biomes : List (Option Biome)
  block_light : List Nat
deriving DecidableEq

/-- The mutable state of the `top_layer` scan: the output under
construction plus the `done` counter. -/
structure ScanState where
  ret : LayerData
  done : Nat
deriving DecidableEq

/-- The initial `LayerData::default()`: 256 empty cells. -/
def LayerData.default : LayerData :=
  ⟨List.replicate 256 (Inhabited.default : BlockInfo), List.replicate 256 none,
    List.replicate 256 0⟩

/-- The biome post-check of the `for xz` loop (layer.rs lines 120-123):
when the (already updated) cell is non-empty and no biome was recorded yet,
sample `biome_at` and store it. -/
def biomeStep (item : SectionItem) (section_y : Int) (coords : SectionBlockCoords)
    (entry1 : BlockInfo) (biomes : List (Option Biome)) (i : Nat) :
    Except String (List (Option Biome)) :=
  if !entry1.is_empty && (biomes.getD i none).isNone then
    match item.biome_at section_y coords with
    | .error e => .error e
    | .ok b => .ok (biomes.set i b)
  else .ok biomes

/-- The body of the `for xz` loop of `top_layer` (layer.rs lines 99-131)
for cell index `i = z·16 + x`. Returns the new state plus the `done ==
N·N` break flag; the flag stays false when the cell was skipped as already
done (the source's `continue` bypasses the break check). -/
def scanCell (item : SectionItem) (section_y : Int) (y : Nat) (st : ScanState)
    (i : Nat) : Except String (ScanState × Bool) :=
  let entry := st.ret.blocks.getD i default
  if entry.done then .ok (st, false)
  else
    let coords : SectionBlockCoords := ⟨i % 16, i / 16, y⟩
    match item.block_at coords with
    | .error e => .error e
    | .ok ob =>
      let step : Except String (BlockInfo × Nat) :=
        match ob with
        | none => .ok (entry, st.done)
        | some block_type =>
          match BlockHeight.new section_y y with
          | .error e => .error e
          | .ok height =>
            .ok ((entry.fill height block_type).1,
              if (entry.fill height block_type).2 then st.done + 1 else st.done)
      match step with
      | .error e => .error e
      | .ok q =>
        match biomeStep item section_y coords q.1 st.ret.biomes i with
        | .error e => .error e
        | .ok biomes1 =>
          .ok (⟨⟨st.ret.blocks.set i q.1, biomes1,
            if q.1.is_empty then
              st.ret.block_light.set i (item.block_light_at coords)
            else st.ret.block_light⟩, q.2⟩,
            q.2 == 256)

/-- The `for xz` loop of `top_layer` over the remaining cell indices,
stopping early once a cell reports `done == 256`. -/
def scanCells (item : SectionItem) (section_y : Int) (y : Nat) :
    List Nat → ScanState → Except String ScanState
  | [], st => .ok st
  | i :: rest, st =>
    match scanCell item section_y y st i with
    | .error e => .error e
    | .ok p => if p.2 then .ok p.1 else scanCells item section_y y rest p.1

/-- The `for y in BlockY::iter().rev()` loop of `top_layer`. -/
def scanYs (item : SectionItem) (section_y : Int) :
    List Nat → ScanState → Except String ScanState
  | [], st => .ok st
  | y :: rest, st =>
    match scanCells item section_y y (List.range 256) st with
    | .error e => .error e
    | .ok st1 => scanYs item section_y rest st1

/-- The outer section loop of `top_layer`; its input list is
`chunk.sections().rev()`, i.e. the populated sections in descending Y. -/
def scanSections : List (Int × SectionItem) → ScanState → Except String ScanState
  | [], st => .ok st
  | p :: rest, st =>
    match scanYs p.2 p.1 (List.range 16).reverse st with
    | .error e => .error e
    | .ok st1 => scanSections rest st1

/-- `top_layer` (layer.rs lines 80-137) over the descending section list;
an empty list is the `Chunk::Empty` case and yields `none`. -/
def top_layer (sections : List (Int × SectionItem)) :
    Except String (Option LayerData) :=
  if sections.isEmpty then .ok none
  else
    match scanSections sections ⟨LayerData.default, 0⟩ with
    | .error e => .error e
    | .ok st => .ok (some st.ret)

/-- `ShiftMask::shift_mask` for `i32` (util.rs lines 20-28): an arithmetic
right shift by `k` together with the shifted-out low bits read as unsigned.
For the positive modulus `2^k`, the arithmetic shift is floor division,
i.e. `Int.ediv` (the `/` of `Int`), and the unsigned mask of a
two's-complement value is `Int.emod` (the `%` of `Int`). -/
def shift_mask (v : Int) (k : Nat) : Int × Int :=
  (v / 2 ^ k, v % 2 ^ k)

/-- `coord_offset` (util.rs lines 35-50): offset a `(chunk, block)` pair of
one axis by `offset` blocks, returning `(region_delta, chunk, block)`.
`chunk < 32` and `block < 16` are the invariants of the source's coordinate
newtypes. The `try_into::<i8>().expect(..)` only narrows the region delta
and cannot fail in the claimed range, so the delta stays an `Int`. -/
def coord_offset (chunk block : Nat) (offset : Int) : Int × Int × Int :=
  let coord : Int := ((chunk <<< BLOCK_BITS) ||| block : Nat) + offset
  let rcb := shift_mask coord BLOCK_BITS
  let rc := shift_mask rcb.1 CHUNK_BITS
  (rc.1, rc.2, rcb.2)

example : coord_offset 0 0 (-1) = (-1, 31, 15) := by decide
example : coord_offset 31 15 1 = (1, 0, 0) := by decide
example : coord_offset 3 7 0 = (0, 3, 7) := by decide

lemma pbGo_some_iff (len max : Nat) :
    ∀ fuel bits b, max + 1 = bits + fuel → bits ≤ max →
      (pbGo len max fuel bits = some b ↔
        (bits ≤ b ∧ b ≤ max ∧ len ≤ 1 <<< b ∧
          ∀ c, bits ≤ c → c < b → 1 <<< c < len)) := by
  intro fuel
  induction fuel with
  | zero => intro bits b h1 h2; omega
  | succ f ih =>
    intro bits b h1 h2
    rw [pbGo]
    by_cases hlt : 1 <<< bits < len
    · simp only [hlt, if_true]
      by_cases hmax : max < bits + 1
      · simp only [hmax, if_true]
        constructor
        · intro h; exact absurd h (by simp)
        · rintro ⟨hb1, hb2, hb3, -⟩
          have hbb : b = bits := by omega
          subst hbb; omega
      · simp only [hmax, if_false]
        rw [ih (bits + 1) b (by omega) (by omega)]
        constructor
        · rintro ⟨hb1, hb2, hb3, hb4⟩
          refine ⟨by omega, hb2, hb3, fun c hc1 hc2 => ?_⟩
          rcases Nat.eq_or_lt_of_le hc1 with hceq | hclt
          · subst hceq; exact hlt
          · exact hb4 c hclt hc2
        · rintro ⟨hb1, hb2, hb3, hb4⟩
          have hbb : bits + 1 ≤ b := by
            rcases Nat.eq_or_lt_of_le hb1 with hbeq | hblt
            · subst hbeq; omega
            · omega
          exact ⟨hbb, hb2, hb3, fun c hc1 hc2 => hb4 c (by omega) hc2⟩
    · simp only [hlt, if_false]
      constructor
      · intro h
        have hbb : b = bits := by
          have := Option.some_inj.mp h; omega
        subst hbb
        exact ⟨le_refl _, h2, by omega, fun c hc1 hc2 => by omega⟩
      · rintro ⟨hb1, hb2, hb3, hb4⟩
        rcases Nat.eq_or_lt_of_le hb1 with hbeq | hblt
        · subst hbeq; rfl
        · exact absurd (hb4 bits (le_refl _) hblt) (by omega)

lemma palette_bits_some_iff (len min max b : Nat) (h : min ≤ max) :
    palette_bits len min max = some b ↔
      (min ≤ b ∧ b ≤ max ∧ len ≤ 1 <<< b ∧
        ∀ c, min ≤ c → c < b → 1 <<< c < len) :=
  pbGo_some_iff len max (max + 1 - min) min b (by omega) h

lemma palette_bits_bounds (len min max b : Nat) (hmm : min ≤ max)
    (h : palette_bits len min max = some b) : min ≤ b ∧ b ≤ max := by
  have := (palette_bits_some_iff len min max b hmm).mp h
  exact ⟨this.1, this.2.1⟩

/-- C8 (amended): for `min ≤ max`, `palette_bits(len, min, max)` returns
`b` iff `min ≤ b ≤ max`, `2^b ≥ len`, and `2^(b−1) < len` when `b > min`;
in particular palette length 1 yields `min`, length `2^max` yields `max`,
and length `2^max + 1` yields absence. -/
lemma palette_bits_iff_pow (len min max b : Nat) (h : min ≤ max) :
    palette_bits len min max = some b ↔
      (min ≤ b ∧ b ≤ max ∧ len ≤ 2 ^ b ∧ (min < b → 2 ^ (b - 1) < len)) := by
  rw [palette_bits_some_iff len min max b h]
  simp only [Nat.one_shiftLeft]
  constructor
  · rintro ⟨h1, h2, h3, h4⟩
    exact ⟨h1, h2, h3, fun hlt => h4 (b - 1) (by omega) (by omega)⟩
  · rintro ⟨h1, h2, h3, h4⟩
    refine ⟨h1, h2, h3, fun c hc1 hc2 => ?_⟩
    have hbm : min < b := by omega
    calc 2 ^ c ≤ 2 ^ (b - 1) := Nat.pow_le_pow_right (by omega) (by omega)
      _ < len := h4 hbm

theorem palette_bits_characterization (len min max : Nat) (h : min ≤ max) :
    (∀ b, palette_bits len min max = some b ↔
      (min ≤ b ∧ b ≤ max ∧ len ≤ 2 ^ b ∧ (min < b → 2 ^ (b - 1) < len))) ∧
    palette_bits 1 min max = some min ∧
    palette_bits (2 ^ max) min max = some max ∧
    palette_bits (2 ^ max + 1) min max = none := by
  refine ⟨fun b => palette_bits_iff_pow len min max b h, ?_, ?_, ?_⟩
  · rw [palette_bits_iff_pow 1 min max min h]
    exact ⟨le_refl _, h, Nat.one_le_two_pow, fun hlt => by omega⟩
  · rw [palette_bits_iff_pow (2 ^ max) min max max h]
    refine ⟨h, le_refl _, le_refl _, fun hlt => ?_⟩
    exact Nat.pow_lt_pow_right (by omega) (by omega)
  · cases hx : palette_bits (2 ^ max + 1) min max with
    | none => rfl
    | some b =>
      have hb := (palette_bits_iff_pow (2 ^ max + 1) min max b h).mp hx
      have hle : 2 ^ b ≤ 2 ^ max := Nat.pow_le_pow_right (by omega) hb.2.1
      omega

/-- C8 counterexample: the claim's biconditional fails when `min > max` —
`palette_bits 1 5 3` returns `5`, which does not satisfy `5 ≤ max = 3`. -/
theorem palette_bits_claim_counterexample :
    palette_bits 1 5 3 = some 5 ∧ ¬(5 ≤ 3) := by decide

/-- C8 witness: the amended characterization applied at the source's
actual parameters `min = 4`, `max = 12`. -/
theorem palette_bits_characterization_witness :
    4 ≤ 12 ∧ palette_bits (2 ^ 12 + 1) 4 12 = none :=
  ⟨by decide, (palette_bits_characterization (2 ^ 12 + 1) 4 12 (by decide)).2.2.2⟩

lemma SectionV1_13.new_pb_none (dv : Nat) (obs : Option (List Int))
    (pal : List String) (bt : BlockTypes)
    (hpb : palette_bits pal.length 4 12 = none) :
    SectionV1_13.new dv obs pal bt = .error "Unsupported block palette size" := by
  unfold SectionV1_13.new
  rw [hpb]

lemma SectionV1_13.new_some_eq (dv : Nat) (ws : List Int) (pal : List String)
    (bt : BlockTypes) (bits : Nat)
    (hpb : palette_bits pal.length 4 12 = some bits) :
    SectionV1_13.new dv (some ws) pal bt =
      (if ws.length =
          (if 2529 ≤ dv then (4096 + 64 / bits - 1) / (64 / bits) else 64 * bits)
      then .ok ⟨some ws, pal.map bt, bits, decide (2529 ≤ dv)⟩
      else .error "Invalid section block data") := by
  unfold SectionV1_13.new
  rw [hpb]

lemma SectionV1_13.new_none_eq (dv : Nat) (pal : List String) (bt : BlockTypes)
    (bits : Nat) (hpb : palette_bits pal.length 4 12 = some bits) :
    SectionV1_13.new dv none pal bt =
      .ok ⟨none, pal.map bt, bits, decide (2529 ≤ dv)⟩ := by
  unfold SectionV1_13.new
  rw [hpb]

lemma SectionV1_13.new_ok_some_inv (dv : Nat) (ws : List Int) (pal : List String)
    (bt : BlockTypes) (s : SectionV1_13)
    (h : SectionV1_13.new dv (some ws) pal bt = .ok s) :
    s.block_states = some ws ∧ s.palette = pal.map bt ∧
    palette_bits pal.length 4 12 = some s.bits ∧
    s.aligned_blocks = decide (2529 ≤ dv) ∧
    ws.length =
      (if 2529 ≤ dv then (4096 + 64 / s.bits - 1) / (64 / s.bits) else 64 * s.bits) := by
  cases hpb : palette_bits pal.length 4 12 with
  | none =>
    rw [SectionV1_13.new_pb_none dv (some ws) pal bt hpb] at h
    exact absurd h (by simp)
  | some bits =>
    rw [SectionV1_13.new_some_eq dv ws pal bt bits hpb] at h
    by_cases hlen : ws.length =
        (if 2529 ≤ dv then (4096 + 64 / bits - 1) / (64 / bits) else 64 * bits)
    · rw [if_pos hlen] at h
      obtain rfl : (⟨some ws, pal.map bt, bits, decide (2529 ≤ dv)⟩ : SectionV1_13) = s :=
        Except.ok.inj h
      exact ⟨rfl, rfl, rfl, rfl, hlen⟩
    · rw [if_neg hlen] at h
      exact absurd h (by simp)

lemma SectionV1_13.new_ok_none_inv (dv : Nat) (pal : List String)
    (bt : BlockTypes) (s : SectionV1_13)
    (h : SectionV1_13.new dv none pal bt = .ok s) :
    s.block_states = none ∧ s.palette = pal.map bt ∧
    palette_bits pal.length 4 12 = some s.bits ∧
    s.aligned_blocks = decide (2529 ≤ dv) := by
  cases hpb : palette_bits pal.length 4 12 with
  | none =>
    rw [SectionV1_13.new_pb_none dv none pal bt hpb] at h
    exact absurd h (by simp)
  | some bits =>
    rw [SectionV1_13.new_none_eq dv pal bt bits hpb] at h
    obtain rfl : (⟨none, pal.map bt, bits, decide (2529 ≤ dv)⟩ : SectionV1_13) = s :=
      Except.ok.inj h
    exact ⟨rfl, rfl, rfl, rfl⟩

/-- C5: with the bit-width `b` resolved from the palette length,
construction of a v1.13 section with a present packed array of length `L`
succeeds iff `L` is `⌈4096 / ⌊64/b⌋⌉` (written `(4096 + ⌊64/b⌋ - 1) / ⌊64/b⌋`
as in the source) in the aligned layout and `64·b` in the unaligned one;
and on success the palette is the name-by-name catalog lookup, so an
unknown name yields an absent entry, never an error. -/
theorem section_new_length_check (dv : Nat) (ws : List Int) (pal : List String)
    (bt : BlockTypes) (b : Nat) (hb : palette_bits pal.length 4 12 = some b) :
    ((∃ s, SectionV1_13.new dv (some ws) pal bt = .ok s) ↔
      ws.length =
        (if 2529 ≤ dv then (4096 + 64 / b - 1) / (64 / b) else 64 * b)) ∧
    (∀ s, SectionV1_13.new dv (some ws) pal bt = .ok s → s.palette = pal.map bt) := by
  constructor
  · constructor
    · rintro ⟨s, hs⟩
      obtain ⟨-, -, hpb, -, hlen⟩ := SectionV1_13.new_ok_some_inv dv ws pal bt s hs
      rw [hpb] at hb
      obtain rfl : s.bits = b := Option.some_inj.mp hb
      exact hlen
    · intro hlen
      refine ⟨⟨some ws, pal.map bt, b, decide (2529 ≤ dv)⟩, ?_⟩
      rw [SectionV1_13.new_some_eq dv ws pal bt b hb, if_pos hlen]
  · intro s hs
    exact (SectionV1_13.new_ok_some_inv dv ws pal bt s hs).2.1

/-- C5 witness: an aligned (data-version 3000) section whose palette has a
single, unknown, name resolves to bit width 4 and accepts exactly 256
packed words. -/
theorem section_new_length_check_witness :
    palette_bits (["minedmap:no_such_block"] : List String).length 4 12 = some 4 ∧
    ∃ s, SectionV1_13.new 3000 (some (List.replicate 256 (0 : Int)))
        ["minedmap:no_such_block"] (fun _ => none) = .ok s :=
  ⟨by decide,
    ((section_new_length_check 3000 (List.replicate 256 (0 : Int))
        ["minedmap:no_such_block"] (fun _ => none) 4 (by decide)).1).mpr (by decide)⟩

/-- C10: a v1.13 section with an empty palette and absent packed array is
constructed successfully with the minimum bit width 4, yet every
`block_at` on it fails with the palette-index-out-of-bounds error, since
the implied index 0 has no palette entry. -/
theorem empty_palette_section_always_errors (dv : Nat) (bt : BlockTypes) :
    ∃ s, SectionV1_13.new dv none [] bt = .ok s ∧ s.bits = 4 ∧
      ∀ coords, s.block_at coords = some (.error "Palette index out of bounds") := by
  refine ⟨⟨none, ([] : List String).map bt, 4, decide (2529 ≤ dv)⟩, ?_, rfl, fun coords => rfl⟩
  exact SectionV1_13.new_none_eq dv [] bt 4 (by decide)

instance instDecEqExcept {ε α : Type} [DecidableEq ε] [DecidableEq α] :
    DecidableEq (Except ε α) := fun x y =>
  match x, y with
  | .ok a, .ok b =>
    if h : a = b then .isTrue (by rw [h]) else .isFalse (fun hc => h (Except.ok.inj hc))
  | .error a, .error b =>
    if h : a = b then .isTrue (by rw [h]) else .isFalse (fun hc => h (Except.error.inj hc))
  | .ok _, .error _ => .isFalse (fun hc => Except.noConfusion hc)
  | .error _, .ok _ => .isFalse (fun hc => Except.noConfusion hc)

lemma aligned_word_lt (b off : Nat) (hb4 : 4 ≤ b) (hb12 : b ≤ 12)
    (hoff : off < 4096) : off / (64 / b) < (4096 + 64 / b - 1) / (64 / b) := by
  interval_cases b <;> omega

lemma unaligned_word_lt (b off : Nat) (hb4 : 4 ≤ b) (hb12 : b ≤ 12)
    (hoff : off < 4096) : off * b / 64 < 64 * b := by
  interval_cases b <;> omega

lemma unaligned_straddle_lt (b off : Nat) (hb4 : 4 ≤ b) (hb12 : b ≤ 12)
    (hoff : off < 4096) (hsh : 64 < off * b % 64 + b) :
    off * b / 64 + 1 < 64 * b := by
  interval_cases b <;> omega

lemma SectionV1_13.block_at_of_index (s : SectionV1_13) (coords : SectionBlockCoords)
    (index : Nat) (hpi : s.palette_index_at coords = some index) :
    s.block_at coords =
      some (if index < s.palette.length
        then Except.ok (s.palette.getD index none)
        else Except.error "Palette index out of bounds") := by
  unfold SectionV1_13.block_at
  by_cases hlt : index < s.palette.length
  · simp only [hpi, List.getElem?_eq_getElem hlt, if_pos hlt,
      List.getD_eq_getElem?_getD, Option.getD_some]
  · have hn : s.palette[index]? = none :=
      List.getElem?_eq_none (l := s.palette) (by omega)
    simp only [hpi, hn, if_neg hlt]

/-- C1: for a successfully constructed v1.13 section under the aligned
layout (data-version ≥ 2529) and any in-section coordinate with linear
offset `off = y·256 + z·16 + x`, `block_at` returns `palette[index]`, where
`index` is 0 when the packed word array is absent and otherwise is
`(words[off / ⌊64/b⌋] as u64 >> ((off mod ⌊64/b⌋)·b)) & ((1<<b)-1)`; it
fails exactly when `index` reaches past the palette. -/
theorem block_at_aligned_decodes (dv : Nat) (obs : Option (List Int))
    (pal : List String) (bt : BlockTypes) (s : SectionV1_13)
    (hnew : SectionV1_13.new dv obs pal bt = .ok s) (hdv : 2529 ≤ dv)
    (x z y : Nat) (hx : x < 16) (hz : z < 16) (hy : y < 16) :
    ∃ index,
      (match obs with
        | none => index = 0
        | some ws =>
          index = (asU64 (ws.getD ((y * 256 + z * 16 + x) / (64 / s.bits)) 0) >>>
              (((y * 256 + z * 16 + x) % (64 / s.bits)) * s.bits)) &&&
            ((1 <<< s.bits) - 1)) ∧
      s.block_at ⟨x, z, y⟩ =
        some (if index < s.palette.length
          then Except.ok (s.palette.getD index none)
          else Except.error "Palette index out of bounds") := by
  cases obs with
  | none =>
    obtain ⟨hbs, -, -, -⟩ := SectionV1_13.new_ok_none_inv dv pal bt s hnew
    refine ⟨0, rfl, ?_⟩
    apply SectionV1_13.block_at_of_index
    unfold SectionV1_13.palette_index_at
    simp only [hbs]
  | some ws =>
    obtain ⟨hbs, -, hpb, hal, hlen⟩ := SectionV1_13.new_ok_some_inv dv ws pal bt s hnew
    have hb := palette_bits_bounds pal.length 4 12 s.bits (by omega) hpb
    have hoff : (⟨x, z, y⟩ : SectionBlockCoords).offset = y * 256 + z * 16 + x := by
      simp [SectionBlockCoords.offset]
    have hofflt : y * 256 + z * 16 + x < 4096 := by omega
    have hword : (y * 256 + z * 16 + x) / (64 / s.bits) < ws.length := by
      rw [hlen, if_pos hdv]
      exact aligned_word_lt s.bits _ hb.1 hb.2 hofflt
    refine ⟨_, rfl, ?_⟩
    apply SectionV1_13.block_at_of_index
    have htrue : s.aligned_blocks = true := by
      rw [hal]; exact decide_eq_true hdv
    unfold SectionV1_13.palette_index_at
    simp only [hbs, htrue, if_true, hoff, List.getElem?_eq_getElem hword,
      List.getD_eq_getElem?_getD, Option.getD_some]

/-- C1 witness: a concrete aligned all-air section. -/
theorem block_at_aligned_decodes_witness :
    (SectionV1_13.new 3000 (some (List.replicate 256 (0 : Int))) ["minecraft:air"]
        (fun n => if n = "minecraft:air" then some ⟨false, false⟩ else none) =
      .ok ⟨some (List.replicate 256 (0 : Int)), [some ⟨false, false⟩], 4, true⟩) ∧
    ∃ index,
      (match (some (List.replicate 256 (0 : Int)) : Option (List Int)) with
        | none => index = 0
        | some ws =>
          index = (asU64 (ws.getD ((0 * 256 + 0 * 16 + 0) / (64 / (4 : Nat))) 0) >>>
              (((0 * 256 + 0 * 16 + 0) % (64 / (4 : Nat))) * 4)) &&& ((1 <<< 4) - 1)) ∧
      SectionV1_13.block_at
          ⟨some (List.replicate 256 (0 : Int)), [some ⟨false, false⟩], 4, true⟩ ⟨0, 0, 0⟩ =
        some (if index < ([some (⟨false, false⟩ : BlockType)] : List (Option BlockType)).length
          then Except.ok (([some (⟨false, false⟩ : BlockType)] :
            List (Option BlockType)).getD index none)
          else Except.error "Palette index out of bounds") :=
  ⟨by decide,
    block_at_aligned_decodes 3000 (some (List.replicate 256 (0 : Int))) ["minecraft:air"]
      (fun n => if n = "minecraft:air" then some ⟨false, false⟩ else none)
      ⟨some (List.replicate 256 (0 : Int)), [some ⟨false, false⟩], 4, true⟩
      (by decide) (by decide) 0 0 0 (by decide) (by decide) (by decide)⟩

/-- C6: for a successfully constructed unaligned (data-version < 2529)
v1.13 section — whose packed array therefore has length exactly `64·b` —
`palette_index_at` never reads out of bounds at any in-section coordinate:
the decode always produces an index. -/
theorem palette_index_unaligned_in_bounds (dv : Nat) (ws : List Int)
    (pal : List String) (bt : BlockTypes) (s : SectionV1_13)
    (hnew : SectionV1_13.new dv (some ws) pal bt = .ok s) (hdv : dv < 2529)
    (x z y : Nat) (hx : x < 16) (hz : z < 16) (hy : y < 16) :
    ∃ index, s.palette_index_at ⟨x, z, y⟩ = some index := by
  obtain ⟨hbs, -, hpb, hal, hlen⟩ := SectionV1_13.new_ok_some_inv dv ws pal bt s hnew
  have hb := palette_bits_bounds pal.length 4 12 s.bits (by omega) hpb
  have hndv : ¬(2529 ≤ dv) := by omega
  have hoff : (⟨x, z, y⟩ : SectionBlockCoords).offset = y * 256 + z * 16 + x := by
    simp [SectionBlockCoords.offset]
  have hofflt : y * 256 + z * 16 + x < 4096 := by omega
  have hlen64 : ws.length = 64 * s.bits := by rw [hlen, if_neg hndv]
  have hfalse : s.aligned_blocks = false := by
    rw [hal]; exact decide_eq_false hndv
  have hword : (y * 256 + z * 16 + x) * s.bits / 64 < ws.length := by
    rw [hlen64]; exact unaligned_word_lt s.bits _ hb.1 hb.2 hofflt
  unfold SectionV1_13.palette_index_at
  by_cases hstr : 64 < (y * 256 + z * 16 + x) * s.bits % 64 + s.bits
  · have hword1 : (y * 256 + z * 16 + x) * s.bits / 64 + 1 < ws.length := by
      rw [hlen64]; exact unaligned_straddle_lt s.bits _ hb.1 hb.2 hofflt hstr
    simp only [hbs, hfalse, Bool.false_eq_true, if_false, hoff,
      List.getElem?_eq_getElem hword, List.getElem?_eq_getElem hword1, if_pos hstr]
    exact ⟨_, rfl⟩
  · simp only [hbs, hfalse, Bool.false_eq_true, if_false, hoff,
      List.getElem?_eq_getElem hword, if_neg hstr]
    exact ⟨_, rfl⟩

/-- C6 witness: a concrete unaligned section (data-version 2000, bit width
4, 256 words) decoded at the last coordinate (15,15,15). -/
theorem palette_index_unaligned_in_bounds_witness :
    (SectionV1_13.new 2000 (some (List.replicate 256 (0 : Int))) ["a"] (fun _ => none) =
      .ok ⟨some (List.replicate 256 (0 : Int)), [none], 4, false⟩) ∧
    ∃ index, SectionV1_13.palette_index_at
        ⟨some (List.replicate 256 (0 : Int)), [none], 4, false⟩ ⟨15, 15, 15⟩ = some index :=
  ⟨by decide,
    palette_index_unaligned_in_bounds 2000 (List.replicate 256 (0 : Int)) ["a"]
      (fun _ => none) ⟨some (List.replicate 256 (0 : Int)), [none], 4, false⟩
      (by decide) (by decide) 15 15 15 (by decide) (by decide) (by decide)⟩

/-- C4 counterexample: an int-array of length 64 does not select the v1.15
3D shape — `BiomesV0::new` rejects it as invalid biome data (the code's
v1.15 length is `4·4·64 = 1024`). -/
theorem biomes_v0_length64_counterexample :
    BiomesV0.new (some (.intArray (List.replicate 64 (0 : Int)))) =
      .error "Invalid biome data" := by decide

/-- C4 (amended): `BiomesV0` construction recognizes exactly three input
shapes — an int-array of length 1024 (the v1.15 3D shape: 4×4×4 biomes per
section × 64 vertical slices), an int-array of length 256 (per-column), a
byte-array of length 256 (legacy per-column) — and any other input,
including absence, fails with invalid biome data. -/
theorem biomes_v0_classification (biomes : Option DeBiomesV0) :
    (∀ d, biomes = some (.intArray d) → d.length = 1024 →
      BiomesV0.new biomes = .ok (.intArrayV15 d)) ∧
    (∀ d, biomes = some (.intArray d) → d.length = 256 →
      BiomesV0.new biomes = .ok (.intArrayV0 d)) ∧
    (∀ d, biomes = some (.byteArray d) → d.length = 256 →
      BiomesV0.new biomes = .ok (.byteArray d)) ∧
    (∀ d, biomes = some (.intArray d) → d.length ≠ 1024 → d.length ≠ 256 →
      BiomesV0.new biomes = .error "Invalid biome data") ∧
    (∀ d, biomes = some (.byteArray d) → d.length ≠ 256 →
      BiomesV0.new biomes = .error "Invalid biome data") ∧
    (biomes = none → BiomesV0.new biomes = .error "Invalid biome data") := by
  have hc : (16 >>> 2) * (16 >>> 2) * (256 >>> 2) = 1024 := by decide
  refine ⟨?_, ?_, ?_, ?_, ?_, ?_⟩
  · rintro d rfl hlen
    unfold BiomesV0.new
    simp only [BLOCKS_PER_CHUNK, hc]
    rw [if_pos hlen]
  · rintro d rfl hlen
    unfold BiomesV0.new
    simp only [BLOCKS_PER_CHUNK, hc]
    rw [if_neg (by omega), if_pos (by omega)]
  · rintro d rfl hlen
    unfold BiomesV0.new
    simp only [BLOCKS_PER_CHUNK]
    rw [if_pos (by omega)]
  · rintro d rfl h1 h2
    unfold BiomesV0.new
    simp only [BLOCKS_PER_CHUNK, hc]
    rw [if_neg (by omega), if_neg (by omega)]
  · rintro d rfl hlen
    unfold BiomesV0.new
    simp only [BLOCKS_PER_CHUNK]
    rw [if_neg (by omega)]
  · rintro rfl
    rfl

/-- C4 witness: the three recognized shapes at concrete lengths. -/
theorem biomes_v0_classification_witness :
    (List.replicate 1024 (0 : Int)).length = 1024 ∧
    BiomesV0.new (some (.intArray (List.replicate 1024 (0 : Int)))) =
      .ok (.intArrayV15 (List.replicate 1024 (0 : Int))) :=
  ⟨by decide, (biomes_v0_classification _).1 _ rfl (by decide)⟩

/-- C7: classification of `Chunk::new_v0` once the section loop has
produced the two maps. Both maps populated is the mixed-versions error;
both empty yields the Empty chunk regardless of the biome array; a single
populated map yields the corresponding chunk variant, with a missing
chunk-level biome array an error in exactly those two cases. -/
theorem chunk_new_v0_classification (dv : Nat) (level : DeLevelV0)
    (bt : BlockTypes) (m13 : List (Int × SectionV1_13 × BlockLight))
    (m0 : List (Int × SectionV0 × BlockLight))
    (h : buildMaps dv bt [] [] level.sections = .ok (m13, m0)) :
    (m13 = [] → m0 = [] → Chunk.new_v0 dv level bt = .ok .empty) ∧
    (m13 ≠ [] → m0 ≠ [] →
      Chunk.new_v0 dv level bt = .error "Mixed section versions") ∧
    (m13 ≠ [] → m0 = [] →
      Chunk.new_v0 dv level bt =
        (match level.biomes with
          | some b => .ok (.v1_13 m13 b)
          | none => .error "Invalid biome data")) ∧
    (m13 = [] → m0 ≠ [] →
      Chunk.new_v0 dv level bt =
        (match level.biomes with
          | some b => .ok (.v0 m0 b)
          | none => .error "Invalid biome data")) := by
  unfold Chunk.new_v0
  simp only [h]
  refine ⟨?_, ?_, ?_, ?_⟩ <;> intro h1 h2
  · subst h1; subst h2; rfl
  · cases m13 with
    | nil => exact absurd rfl h1
    | cons a l =>
      cases m0 with
      | nil => exact absurd rfl h2
      | cons a2 l2 => rfl
  · subst h2
    cases m13 with
    | nil => exact absurd rfl h1
    | cons a l => rfl
  · subst h1
    cases m0 with
    | nil => exact absurd rfl h2
    | cons a l => rfl

/-- C7 witness: a level with no sections assembles to the Empty chunk even
though its biome array is absent. -/
theorem chunk_new_v0_classification_witness :
    (buildMaps 0 (fun _ => none) [] [] ([] : List DeLevelSection) = .ok ([], [])) ∧
    Chunk.new_v0 0 ⟨[], none⟩ (fun _ => none) = .ok .empty :=
  ⟨rfl, (chunk_new_v0_classification 0 ⟨[], none⟩ (fun _ => none) [] [] rfl).1 rfl rfl⟩

/-- C9: `coord_offset` decomposes `c·16 + b + Δ` into a region delta in
{−1, 0, 1} and chunk/block coordinates satisfying
`(r·32 + c')·16 + b' = c·16 + b + Δ`, for all in-range inputs and
`|Δ| ≤ 512`. -/
theorem coord_offset_correct (c b : Nat) (offset : Int) (hc : c < 32)
    (hb : b < 16) (hoff : offset.natAbs ≤ 512) :
    ((coord_offset c b offset).1 = -1 ∨ (coord_offset c b offset).1 = 0 ∨
      (coord_offset c b offset).1 = 1) ∧
    ((coord_offset c b offset).1 * 32 + (coord_offset c b offset).2.1) * 16 +
        (coord_offset c b offset).2.2 = 16 * c + b + offset := by
  have hball : ∀ c0 < 32, ∀ b0 < 16, (c0 <<< 4 ||| b0) = 16 * c0 + b0 := by decide
  have hnat : (c <<< 4 ||| b) = 16 * c + b := hball c hc b hb
  have h16 : (2 : Int) ^ (4 : Nat) = 16 := by norm_num
  have h32 : (2 : Int) ^ (5 : Nat) = 32 := by norm_num
  unfold coord_offset shift_mask
  simp only [BLOCK_BITS, CHUNK_BITS, hnat, h16, h32]
  omega

/-- C9 witness: one block west of the region origin lands in the region to
the west, at its last chunk and block. -/
theorem coord_offset_correct_witness :
    (0 : Nat) < 32 ∧ (0 : Nat) < 16 ∧ (Int.natAbs (-1)) ≤ 512 ∧
    (((coord_offset 0 0 (-1)).1 = -1 ∨ (coord_offset 0 0 (-1)).1 = 0 ∨
        (coord_offset 0 0 (-1)).1 = 1) ∧
      ((coord_offset 0 0 (-1)).1 * 32 + (coord_offset 0 0 (-1)).2.1) * 16 +
          (coord_offset 0 0 (-1)).2.2 = 16 * 0 + 0 + (-1)) :=
  ⟨by decide, by decide, by decide,
    coord_offset_correct 0 0 (-1) (by decide) (by decide) (by decide)⟩

lemma getD_set_eq_ite {α : Type} (l : List α) (i j : Nat) (a d : α) :
    (l.set i a).getD j d = if i = j ∧ i < l.length then a else l.getD j d := by
  by_cases hij : i = j
  · subst hij
    by_cases hlen : i < l.length
    · rw [if_pos ⟨rfl, hlen⟩, List.getD_eq_getElem?_getD, List.getElem?_set_self hlen]
      rfl
    · rw [if_neg (fun hc => hlen hc.2), List.set_eq_of_length_le (by omega)]
  · rw [if_neg (fun hc => hij hc.1), List.getD_eq_getElem?_getD,
      List.getElem?_set_ne hij, ← List.getD_eq_getElem?_getD]

lemma BlockHeight.new_ok_eq (sy : Int) (y : Nat) (h : Int)
    (hok : BlockHeight.new sy y = .ok h) : h = sy * 16 + y := by
  unfold BlockHeight.new at hok
  split at hok
  · exact absurd hok (by simp)
  · split at hok
    · exact absurd hok (by simp)
    · have he := Except.ok.inj hok
      simp only [BLOCKS_PER_CHUNK] at he
      omega

/-- The per-cell invariant of the top-layer scan at cell index `i` (claim
C2): a set depth forces a set block type, and a non-water block type comes
with the exact world height of the block recorded as the depth. -/
def cellInv (secs : List (Int × SectionItem)) (i : Nat) (e : BlockInfo) : Prop :=
  (e.depth.isSome → e.block_type.isSome) ∧
  ∀ t, e.block_type = some t → t.water = false →
    ∃ (sy : Int) (item : SectionItem) (y : Nat), (sy, item) ∈ secs ∧ y < 16 ∧
      e.depth = some (sy * 16 + (y : Int)) ∧
      item.block_at ⟨i % 16, i / 16, y⟩ = Except.ok (some t)

/-- The scan-state invariant: every cell of the output under construction
satisfies `cellInv`. -/
def stInv (secs : List (Int × SectionItem)) (st : ScanState) : Prop :=
  ∀ i, cellInv secs i (st.ret.blocks.getD i default)

lemma fill_not_opaq (e : BlockInfo) (h : Int) (t : BlockType)
    (hop : t.is BlockFlag.opaq = false) : e.fill h t = (e, false) := by
  unfold BlockInfo.fill
  simp [hop]

lemma fill_water_none (e : BlockInfo) (h : Int) (t : BlockType)
    (hop : t.is BlockFlag.opaq = true) (hw : t.is BlockFlag.water = true)
    (hbt : e.block_type = none) :
    e.fill h t = ({ e with block_type := some t }, false) := by
  unfold BlockInfo.fill
  simp [hop, hw, hbt]

lemma fill_water_some (e : BlockInfo) (h : Int) (t t0 : BlockType)
    (hop : t.is BlockFlag.opaq = true) (hw : t.is BlockFlag.water = true)
    (hbt : e.block_type = some t0) :
    e.fill h t = (e, false) := by
  unfold BlockInfo.fill
  simp [hop, hw, hbt]

lemma fill_solid_none (e : BlockInfo) (h : Int) (t : BlockType)
    (hop : t.is BlockFlag.opaq = true) (hw : t.is BlockFlag.water = false)
    (hbt : e.block_type = none) :
    e.fill h t = (⟨some t, some h⟩, true) := by
  unfold BlockInfo.fill
  simp [hop, hw, hbt]

lemma fill_solid_some (e : BlockInfo) (h : Int) (t t0 : BlockType)
    (hop : t.is BlockFlag.opaq = true) (hw : t.is BlockFlag.water = false)
    (hbt : e.block_type = some t0) :
    e.fill h t = (⟨some t0, some h⟩, true) := by
  unfold BlockInfo.fill
  simp [hop, hw, hbt]

lemma fill_cellInv (secs : List (Int × SectionItem)) (i : Nat) (e : BlockInfo)
    (sy : Int) (item : SectionItem) (y : Nat) (t : BlockType)
    (hmem : (sy, item) ∈ secs) (hy : y < 16)
    (hdepth : e.depth = none) (hinv : cellInv secs i e)
    (hblock : item.block_at ⟨i % 16, i / 16, y⟩ = Except.ok (some t)) :
    cellInv secs i (e.fill (sy * 16 + (y : Int)) t).1 := by
  cases hop : t.is BlockFlag.opaq with
  | false => rw [fill_not_opaq e _ t hop]; exact hinv
  | true =>
    cases hw : t.is BlockFlag.water with
    | true =>
      cases hbt : e.block_type with
      | none =>
        rw [fill_water_none e _ t hop hw hbt]
        constructor
        · intro habs
          rw [show ({ e with block_type := some t } : BlockInfo).depth = e.depth
            from rfl, hdepth] at habs
          exact absurd habs (by simp)
        · intro t2 ht2 hw2
          have heq : t = t2 := Option.some_inj.mp ht2
          subst heq
          have hwt : t.water = true := hw
          rw [hwt] at hw2
          cases hw2
      | some t0 =>
        rw [fill_water_some e _ t t0 hop hw hbt]
        exact hinv
    | false =>
      cases hbt : e.block_type with
      | none =>
        rw [fill_solid_none e _ t hop hw hbt]
        refine ⟨fun _ => rfl, ?_⟩
        intro t2 ht2 hw2
        have heq : t = t2 := Option.some_inj.mp ht2
        subst heq
        exact ⟨sy, item, y, hmem, hy, rfl, hblock⟩
      | some t0 =>
        rw [fill_solid_some e _ t t0 hop hw hbt]
        refine ⟨fun _ => rfl, ?_⟩
        intro t2 ht2 hw2
        have heq : t0 = t2 := Option.some_inj.mp ht2
        subst heq
        obtain ⟨sy2, item2, y2, -, -, hd, -⟩ := hinv.2 t0 hbt hw2
        rw [hdepth] at hd
        cases hd

lemma scanCell_stInv (secs : List (Int × SectionItem)) (item : SectionItem)
    (sy : Int) (y : Nat) (st st1 : ScanState) (brk : Bool) (i : Nat)
    (hmem : (sy, item) ∈ secs) (hy : y < 16) (hinv : stInv secs st)
    (h : scanCell item sy y st i = .ok (st1, brk)) : stInv secs st1 := by
  unfold scanCell at h
  cases hdone : (st.ret.blocks.getD i default).done with
  | true =>
    simp only [hdone, if_true] at h
    have hp : (st, false) = (st1, brk) := Except.ok.inj h
    have hst : st = st1 := congrArg Prod.fst hp
    rw [← hst]
    exact hinv
  | false =>
    simp only [hdone, Bool.false_eq_true, if_false] at h
    have hdepthnone : (st.ret.blocks.getD i default).depth = none := by
      have hns : ¬(st.ret.blocks.getD i default).depth.isSome = true := by
        rw [show (st.ret.blocks.getD i default).depth.isSome =
          (st.ret.blocks.getD i default).done from rfl, hdone]
        simp
      exact Option.not_isSome_iff_eq_none.mp hns
    -- the state after the write-back preserves the invariant as soon as
    -- the updated cell does
    have main : ∀ (entry1 : BlockInfo) (done1 : Nat),
        cellInv secs i entry1 →
        ∀ (biomes1 : List (Option Biome)) (light1 : List Nat),
        st1 = ⟨⟨st.ret.blocks.set i entry1, biomes1, light1⟩, done1⟩ →
        stInv secs st1 := by
      intro entry1 done1 hcell biomes1 light1 hst1
      intro j
      rw [hst1]
      show cellInv secs j ((st.ret.blocks.set i entry1).getD j default)
      rw [getD_set_eq_ite]
      by_cases hc : i = j ∧ i < st.ret.blocks.length
      · rw [if_pos hc, ← hc.1]
        exact hcell
      · rw [if_neg hc]
        exact hinv j
    cases hba : item.block_at ⟨i % 16, i / 16, y⟩ with
    | error e => rw [hba] at h; cases h
    | ok ob =>
      simp only [hba] at h
      cases ob with
      | none =>
        -- no block here: the cell is written back unchanged
        cases hbio : biomeStep item sy ⟨i % 16, i / 16, y⟩
            (st.ret.blocks.getD i default) st.ret.biomes i with
        | error e => simp only [hbio] at h; cases h
        | ok biomes1 =>
          simp only [hbio] at h
          have hp := Except.ok.inj h
          exact main _ _ (hinv i) biomes1 _ (congrArg Prod.fst hp).symm
      | some t =>
        cases hbh : BlockHeight.new sy y with
        | error e => simp only [hbh] at h; cases h
        | ok h0 =>
          simp only [hbh] at h
          have hh0 : h0 = sy * 16 + (y : Int) := BlockHeight.new_ok_eq sy y h0 hbh
          have hcell : cellInv secs i
              (((st.ret.blocks.getD i default).fill h0 t).1) := by
            rw [hh0]
            exact fill_cellInv secs i _ sy item y t hmem hy hdepthnone (hinv i) hba
          cases hbio : biomeStep item sy ⟨i % 16, i / 16, y⟩
              ((st.ret.blocks.getD i default).fill h0 t).1 st.ret.biomes i with
          | error e => simp only [hbio] at h; cases h
          | ok biomes1 =>
            simp only [hbio] at h
            have hp := Except.ok.inj h
            exact main _ _ hcell biomes1 _ (congrArg Prod.fst hp).symm

lemma scanCells_stInv (secs : List (Int × SectionItem)) (item : SectionItem)
    (sy : Int) (y : Nat) (hmem : (sy, item) ∈ secs) (hy : y < 16) :
    ∀ (cells : List Nat) (st st1 : ScanState), stInv secs st →
      scanCells item sy y cells st = .ok st1 → stInv secs st1 := by
  intro cells
  induction cells with
  | nil =>
    intro st st1 hinv h
    have hst : st = st1 := Except.ok.inj h
    rw [← hst]; exact hinv
  | cons i rest ih =>
    intro st st1 hinv h
    unfold scanCells at h
    cases hc : scanCell item sy y st i with
    | error e => rw [hc] at h; cases h
    | ok p =>
      simp only [hc] at h
      have hst1 : stInv secs p.1 := scanCell_stInv secs item sy y st p.1 p.2 i hmem hy hinv hc
      cases hbrk : p.2 with
      | true =>
        rw [hbrk, if_pos rfl] at h
        have hst : p.1 = st1 := Except.ok.inj h
        rw [← hst]; exact hst1
      | false =>
        rw [hbrk, if_neg Bool.false_ne_true] at h
        exact ih p.1 st1 hst1 h

lemma scanYs_stInv (secs : List (Int × SectionItem)) (item : SectionItem)
    (sy : Int) (hmem : (sy, item) ∈ secs) :
    ∀ (ys : List Nat), (∀ y ∈ ys, y < 16) → ∀ st st1, stInv secs st →
      scanYs item sy ys st = .ok st1 → stInv secs st1 := by
  intro ys
  induction ys with
  | nil =>
    intro _ st st1 hinv h
    have hst : st = st1 := Except.ok.inj h
    rw [← hst]; exact hinv
  | cons y rest ih =>
    intro hys st st1 hinv h
    unfold scanYs at h
    cases hc : scanCells item sy y (List.range 256) st with
    | error e => rw [hc] at h; cases h
    | ok stm =>
      rw [hc] at h
      have hy : y < 16 := hys y (List.mem_cons_self y rest)
      have hstm : stInv secs stm :=
        scanCells_stInv secs item sy y hmem hy (List.range 256) st stm hinv hc
      exact ih (fun y2 hy2 => hys y2 (List.mem_cons_of_mem y hy2)) stm st1 hstm h

lemma scanSections_stInv (secs : List (Int × SectionItem)) :
    ∀ (l : List (Int × SectionItem)), (∀ p ∈ l, p ∈ secs) →
      ∀ st st1, stInv secs st → scanSections l st = .ok st1 → stInv secs st1 := by
  intro l
  induction l with
  | nil =>
    intro _ st st1 hinv h
    have hst : st = st1 := Except.ok.inj h
    rw [← hst]; exact hinv
  | cons p rest ih =>
    intro hl st st1 hinv h
    unfold scanSections at h
    cases hc : scanYs p.2 p.1 (List.range 16).reverse st with
    | error e => rw [hc] at h; cases h
    | ok stm =>
      rw [hc] at h
      have hmem : (p.1, p.2) ∈ secs := hl p (List.mem_cons_self p rest)
      have hstm : stInv secs stm :=
        scanYs_stInv secs p.2 p.1 hmem (List.range 16).reverse
          (fun y hy => by
            rw [List.mem_reverse, List.mem_range] at hy
            exact hy) st stm hinv hc
      exact ih (fun p2 hp2 => hl p2 (List.mem_cons_of_mem p hp2)) stm st1 hstm h

lemma stInv_initial (secs : List (Int × SectionItem)) :
    stInv secs ⟨LayerData.default, 0⟩ := by
  intro j
  have hdef : (LayerData.default.blocks.getD j default) = (⟨none, none⟩ : BlockInfo) := by
    show ((List.replicate 256 (Inhabited.default : BlockInfo)).getD j default) = _
    rw [List.getD_eq_getElem?_getD, List.getElem?_replicate]
    by_cases hj : j < 256
    · rw [if_pos hj]; rfl
    · rw [if_neg hj]; rfl
  rw [hdef]
  refine ⟨fun habs => ?_, fun t ht => ?_⟩
  · cases habs
  · cases ht

/-- C2: for every chunk (its descending section list) on which `top_layer`
succeeds with a layer, every output cell satisfies: a set depth implies a
set block type, and a block type that is not water comes with `depth`
equal to the world-Y `section·16 + blockY` of the very block stored in the
cell (witnessed by a section of the chunk whose `block_at` returns it). -/
theorem top_layer_invariant (secs : List (Int × SectionItem)) (ld : LayerData)
    (h : top_layer secs = .ok (some ld)) (i : Nat) :
    ((ld.blocks.getD i default).depth.isSome →
      (ld.blocks.getD i default).block_type.isSome) ∧
    (∀ t, (ld.blocks.getD i default).block_type = some t → t.water = false →
      ∃ (sy : Int) (item : SectionItem) (y : Nat), (sy, item) ∈ secs ∧ y < 16 ∧
        (ld.blocks.getD i default).depth = some (sy * 16 + (y : Int)) ∧
        item.block_at ⟨i % 16, i / 16, y⟩ = Except.ok (some t)) := by
  unfold top_layer at h
  by_cases hemp : secs.isEmpty
  · rw [if_pos hemp] at h
    have := Except.ok.inj h
    cases this
  · rw [if_neg hemp] at h
    cases hs : scanSections secs ⟨LayerData.default, 0⟩ with
    | error e => rw [hs] at h; cases h
    | ok st =>
      rw [hs] at h
      have hld : st.ret = ld := Option.some_inj.mp (Except.ok.inj h)
      have hfin : stInv secs st :=
        scanSections_stInv secs secs (fun p hp => hp) ⟨LayerData.default, 0⟩ st
          (stInv_initial secs) hs
      have := hfin i
      rw [hld] at this
      exact this

/-- The cell indices before column 85 in scan order. -/
def preCells : List Nat := List.range 85

/-- The cell indices after column 85 in scan order. -/
def postCells : List Nat := List.drop 86 (List.range 256)

lemma range256_decomp : List.range 256 = preCells ++ 85 :: postCells := by decide

lemma postCells_facts : ∀ i ∈ postCells, 85 < i ∧ i < 256 := by decide

lemma scanCell_done (item : SectionItem) (sy : Int) (y : Nat) (st : ScanState)
    (i : Nat) (h : (st.ret.blocks.getD i default).done = true) :
    scanCell item sy y st i = .ok (st, false) := by
  unfold scanCell
  rw [if_pos h]

lemma scanCells_skip (item : SectionItem) (sy : Int) (y : Nat) :
    ∀ (cells : List Nat) (st : ScanState),
      (∀ i ∈ cells, (st.ret.blocks.getD i default).done = true) →
      scanCells item sy y cells st = .ok st := by
  intro cells
  induction cells with
  | nil => intro st _; rfl
  | cons i rest ih =>
    intro st h
    rw [scanCells]
    simp only [scanCell_done item sy y st i (h i (List.mem_cons_self i rest))]
    rw [if_neg Bool.false_ne_true]
    exact ih st (fun j hj => h j (List.mem_cons_of_mem i hj))

lemma scanCells_append_skip (item : SectionItem) (sy : Int) (y : Nat)
    (l2 : List Nat) :
    ∀ (l1 : List Nat) (st : ScanState),
      (∀ i ∈ l1, (st.ret.blocks.getD i default).done = true) →
      scanCells item sy y (l1 ++ l2) st = scanCells item sy y l2 st := by
  intro l1
  induction l1 with
  | nil => intro st _; rfl
  | cons i rest ih =>
    intro st h
    show scanCells item sy y (i :: (rest ++ l2)) st = _
    rw [scanCells]
    simp only [scanCell_done item sy y st i (h i (List.mem_cons_self i rest))]
    rw [if_neg Bool.false_ne_true]
    exact ih st (fun j hj => h j (List.mem_cons_of_mem i hj))

lemma scanCells_single_pending (item : SectionItem) (sy : Int) (y : Nat)
    (st st1 : ScanState)
    (hdone : ∀ i, i < 256 → i ≠ 85 → (st.ret.blocks.getD i default).done = true)
    (hdone1 : ∀ i, i < 256 → i ≠ 85 → (st1.ret.blocks.getD i default).done = true)
    (hcell : scanCell item sy y st 85 = .ok (st1, false)) :
    scanCells item sy y (List.range 256) st = .ok st1 := by
  rw [range256_decomp,
    scanCells_append_skip item sy y (85 :: postCells) preCells st
      (fun i hi => by
        have hilt := List.mem_range.mp hi
        exact hdone i (by omega) (by omega))]
  rw [scanCells]
  simp only [hcell]
  rw [if_neg Bool.false_ne_true]
  exact scanCells_skip item sy y postCells st1
    (fun i hi => by
      have hif := postCells_facts i hi
      exact hdone1 i hif.2 (by omega))

lemma scanCells_single_pending_brk (item : SectionItem) (sy : Int) (y : Nat)
    (st st1 : ScanState)
    (hdone : ∀ i, i < 256 → i ≠ 85 → (st.ret.blocks.getD i default).done = true)
    (hcell : scanCell item sy y st 85 = .ok (st1, true)) :
    scanCells item sy y (List.range 256) st = .ok st1 := by
  rw [range256_decomp,
    scanCells_append_skip item sy y (85 :: postCells) preCells st
      (fun i hi => by
        have hilt := List.mem_range.mp hi
        exact hdone i (by omega) (by omega))]
  rw [scanCells]
  simp only [hcell]
  rw [if_pos trivial]

lemma scanYs_cons_ok (item : SectionItem) (sy : Int) (y : Nat) (rest : List Nat)
    (st st1 : ScanState)
    (h : scanCells item sy y (List.range 256) st = .ok st1) :
    scanYs item sy (y :: rest) st = scanYs item sy rest st1 := by
  rw [scanYs, h]

lemma scanYs_nil_eq (item : SectionItem) (sy : Int) (st : ScanState) :
    scanYs item sy [] st = .ok st := rfl

lemma scanSections_cons_ok (sy : Int) (item : SectionItem)
    (rest : List (Int × SectionItem)) (st st1 : ScanState)
    (h : scanYs item sy [15, 14, 13, 12, 11, 10, 9, 8, 7, 6, 5, 4, 3, 2, 1, 0] st =
      .ok st1) :
    scanSections ((sy, item) :: rest) st = scanSections rest st1 := by
  rw [scanSections]
  dsimp only
  rw [show (List.range 16).reverse = [15, 14, 13, 12, 11, 10, 9, 8, 7, 6, 5, 4, 3, 2, 1, 0]
    from by decide, h]

lemma scanSections_nil_eq (st : ScanState) : scanSections [] st = .ok st := rfl

lemma top_layer_ok_of_scan (p : Int × SectionItem) (rest : List (Int × SectionItem))
    (st1 : ScanState)
    (h : scanSections (p :: rest) ⟨LayerData.default, 0⟩ = .ok st1) :
    top_layer (p :: rest) = .ok (some st1.ret) := by
  rw [top_layer, show ((p :: rest).isEmpty) = false from rfl,
    if_neg Bool.false_ne_true, h]

/-- A filled "stone" cell: opaque non-water block, top at world-Y 15. -/
def stoneInfo : BlockInfo := ⟨some ⟨true, false⟩, some 15⟩

/-- Intermediate scan state in which every column except 85 is finished
stone and column 85 holds `c85`. -/
def rowState (c85 : BlockInfo) (d : Nat) : ScanState :=
  ⟨⟨(List.replicate 256 stoneInfo).set 85 c85,
    List.replicate 256 none, List.replicate 256 0⟩, d⟩

lemma rowState_getD_ne (c85 : BlockInfo) (d i : Nat) (hi : i < 256)
    (hne : i ≠ 85) :
    ((rowState c85 d).ret.blocks.getD i default) = stoneInfo := by
  show (((List.replicate 256 stoneInfo).set 85 c85).getD i default) = _
  rw [getD_set_eq_ite, if_neg (fun hc => hne hc.1.symm),
    List.getD_eq_getElem?_getD, List.getElem?_replicate, if_pos hi]
  rfl

lemma rowState_getD_85 (c85 : BlockInfo) (d : Nat) :
    ((rowState c85 d).ret.blocks.getD 85 default) = c85 := by
  show (((List.replicate 256 stoneInfo).set 85 c85).getD 85 default) = _
  rw [getD_set_eq_ite, if_pos ⟨rfl, by rw [List.length_replicate]; omega⟩]

lemma rowState_done_ne (c85 : BlockInfo) (d i : Nat) (hi : i < 256)
    (hne : i ≠ 85) :
    ((rowState c85 d).ret.blocks.getD i default).done = true := by
  rw [rowState_getD_ne c85 d i hi hne]
  rfl

lemma rowState_all_done (c85 : BlockInfo) (d : Nat) (hc : c85.done = true) :
    ∀ i ∈ List.range 256,
      ((rowState c85 d).ret.blocks.getD i default).done = true := by
  intro i hi
  have hilt := List.mem_range.mp hi
  by_cases h85 : i = 85
  · subst h85; rw [rowState_getD_85]; exact hc
  · exact rowState_done_ne c85 d i hilt h85

lemma scanCell_brk_eq (item : SectionItem) (sy : Int) (y : Nat)
    (st st1 : ScanState) (i : Nat)
    (h : scanCell item sy y st i = .ok (st1, true)) : st1.done = 256 := by
  unfold scanCell at h
  cases hdone : (st.ret.blocks.getD i default).done with
  | true =>
    simp only [hdone, if_true] at h
    have hp : (st, false) = (st1, true) := Except.ok.inj h
    have hff : false = true := congrArg Prod.snd hp
    cases hff
  | false =>
    simp only [hdone, Bool.false_eq_true, if_false] at h
    cases hba : item.block_at ⟨i % 16, i / 16, y⟩ with
    | error e => rw [hba] at h; cases h
    | ok ob =>
      simp only [hba] at h
      cases ob with
      | none =>
        cases hbio : biomeStep item sy ⟨i % 16, i / 16, y⟩
            (st.ret.blocks.getD i default) st.ret.biomes i with
        | error e => simp only [hbio] at h; cases h
        | ok biomes1 =>
          simp only [hbio] at h
          obtain ⟨hst1, hflag⟩ := Prod.mk.inj (Except.ok.inj h)
          have hd := eq_of_beq hflag
          rw [← hst1]
          exact hd
      | some t =>
        cases hbh : BlockHeight.new sy y with
        | error e => simp only [hbh] at h; cases h
        | ok h0 =>
          simp only [hbh] at h
          cases hbio : biomeStep item sy ⟨i % 16, i / 16, y⟩
              ((st.ret.blocks.getD i default).fill h0 t).1 st.ret.biomes i with
          | error e => simp only [hbio] at h; cases h
          | ok biomes1 =>
            simp only [hbio] at h
            obtain ⟨hst1, hflag⟩ := Prod.mk.inj (Except.ok.inj h)
            have hd := eq_of_beq hflag
            rw [← hst1]
            exact hd

lemma scanCells_append_no_brk (item : SectionItem) (sy : Int) (y : Nat)
    (l1 : List Nat) :
    ∀ (l2 : List Nat) (st st1 : ScanState),
      scanCells item sy y l1 st = .ok st1 → st1.done ≠ 256 →
      scanCells item sy y (l1 ++ l2) st = scanCells item sy y l2 st1 := by
  induction l1 with
  | nil =>
    intro l2 st st1 h1 _
    have hst : st = st1 := Except.ok.inj h1
    rw [List.nil_append, hst]
  | cons i rest ih =>
    intro l2 st st1 h1 hne
    rw [scanCells] at h1
    show scanCells item sy y (i :: (rest ++ l2)) st = _
    rw [scanCells]
    cases hc : scanCell item sy y st i with
    | error e => rw [hc] at h1; cases h1
    | ok p =>
      simp only [hc] at h1 ⊢
      cases hb : p.2 with
      | true =>
        rw [hb, if_pos rfl] at h1
        have hst1 : p.1 = st1 := Except.ok.inj h1
        have hcb : scanCell item sy y st i = .ok (p.1, true) := by
          rw [← hb]; exact hc
        have hd := scanCell_brk_eq item sy y st p.1 i hcb
        rw [hst1] at hd
        exact absurd hd hne
      | false =>
        rw [hb, if_neg Bool.false_ne_true] at h1
        rw [if_neg Bool.false_ne_true]
        exact ih l2 p.1 st1 h1 hne

/-- The scan state midway through the fill row of the witness chunks: the
first `k` columns are finished stone, the rest untouched. -/
def row15Partial (k : Nat) : ScanState :=
  ⟨⟨List.replicate k stoneInfo ++ List.replicate (256 - k) (Inhabited.default : BlockInfo),
    List.replicate 256 none, List.replicate 256 0⟩, k⟩

/-- The C3 fill-row state after `k` cells: like `row15Partial` but column
85 (air at y = 15) stays empty. -/
def c3Row15Mid (k : Nat) : ScanState :=
  ⟨⟨((List.replicate k stoneInfo ++
      List.replicate (256 - k) (Inhabited.default : BlockInfo)).set 85
        (Inhabited.default : BlockInfo)),
    List.replicate 256 none, List.replicate 256 0⟩, k - 1⟩

lemma range256_chunks :
    List.range 256 = List.range' 0 64 ++ (List.range' 64 64 ++
      (List.range' 128 64 ++ List.range' 192 64)) := by decide

/-- A concrete section for the C2 witness: every block is opaque non-water
("stone"), with no biome data and dark light. -/
def c2Item : SectionItem where
  block_at := fun _ => .ok (some ⟨true, false⟩)
  biome_at := fun _ _ => .ok none
  block_light_at := fun _ => 0

/-- The layer the C2 witness chunk scans to: every column is stone with its
top at world-Y 15. -/
def c2Layer : LayerData :=
  ⟨List.replicate 256 ⟨some ⟨true, false⟩, some 15⟩,
    List.replicate 256 none, List.replicate 256 0⟩

set_option maxHeartbeats 16000000 in
lemma c2_row15_chunk1 : scanCells c2Item 0 15 (List.range' 0 64)
    ⟨LayerData.default, 0⟩ = .ok (row15Partial 64) := by decide

set_option maxHeartbeats 16000000 in
lemma c2_row15_chunk2 : scanCells c2Item 0 15 (List.range' 64 64)
    (row15Partial 64) = .ok (row15Partial 128) := by decide

set_option maxHeartbeats 16000000 in
lemma c2_row15_chunk3 : scanCells c2Item 0 15 (List.range' 128 64)
    (row15Partial 128) = .ok (row15Partial 192) := by decide

set_option maxHeartbeats 16000000 in
lemma c2_row15_chunk4 : scanCells c2Item 0 15 (List.range' 192 64)
    (row15Partial 192) = .ok ⟨c2Layer, 256⟩ := by decide

lemma c2_row15 : scanCells c2Item 0 15 (List.range 256) ⟨LayerData.default, 0⟩ =
    .ok ⟨c2Layer, 256⟩ := by
  have e0 : scanCells c2Item 0 15 (List.range 256) ⟨LayerData.default, 0⟩ =
      scanCells c2Item 0 15 (List.range' 0 64 ++ (List.range' 64 64 ++
        (List.range' 128 64 ++ List.range' 192 64))) ⟨LayerData.default, 0⟩ := by
    rw [range256_chunks]
  have e1 := scanCells_append_no_brk c2Item 0 15 (List.range' 0 64)
    (List.range' 64 64 ++ (List.range' 128 64 ++ List.range' 192 64))
    ⟨LayerData.default, 0⟩ (row15Partial 64) c2_row15_chunk1 (by decide)
  have e2 := scanCells_append_no_brk c2Item 0 15 (List.range' 64 64)
    (List.range' 128 64 ++ List.range' 192 64)
    (row15Partial 64) (row15Partial 128) c2_row15_chunk2 (by decide)
  have e3 := scanCells_append_no_brk c2Item 0 15 (List.range' 128 64)
    (List.range' 192 64) (row15Partial 128) (row15Partial 192)
    c2_row15_chunk3 (by decide)
  exact e0.trans (e1.trans (e2.trans (e3.trans c2_row15_chunk4)))

lemma c2_state_done : ∀ i ∈ List.range 256,
    ((⟨c2Layer, 256⟩ : ScanState).ret.blocks.getD i default).done = true := by
  intro i hi
  show ((List.replicate 256 (⟨some ⟨true, false⟩, some 15⟩ : BlockInfo)).getD
    i default).done = true
  rw [List.getD_eq_getElem?_getD, List.getElem?_replicate,
    if_pos (List.mem_range.mp hi)]
  rfl

lemma c2_skip (y : Nat) :
    scanCells c2Item 0 y (List.range 256) ⟨c2Layer, 256⟩ = .ok ⟨c2Layer, 256⟩ :=
  scanCells_skip c2Item 0 y (List.range 256) ⟨c2Layer, 256⟩ c2_state_done

lemma c2_top_layer : top_layer [((0 : Int), c2Item)] = .ok (some c2Layer) := by
  have hy15 := scanYs_cons_ok c2Item 0 15 [14, 13, 12, 11, 10, 9, 8, 7, 6, 5, 4, 3, 2, 1, 0]
    ⟨LayerData.default, 0⟩ ⟨c2Layer, 256⟩
    (c2_row15)
  have hy14 := scanYs_cons_ok c2Item 0 14 [13, 12, 11, 10, 9, 8, 7, 6, 5, 4, 3, 2, 1, 0]
    ⟨c2Layer, 256⟩ ⟨c2Layer, 256⟩
    (c2_skip 14)
  have hy13 := scanYs_cons_ok c2Item 0 13 [12, 11, 10, 9, 8, 7, 6, 5, 4, 3, 2, 1, 0]
    ⟨c2Layer, 256⟩ ⟨c2Layer, 256⟩
    (c2_skip 13)
  have hy12 := scanYs_cons_ok c2Item 0 12 [11, 10, 9, 8, 7, 6, 5, 4, 3, 2, 1, 0]
    ⟨c2Layer, 256⟩ ⟨c2Layer, 256⟩
    (c2_skip 12)
  have hy11 := scanYs_cons_ok c2Item 0 11 [10, 9, 8, 7, 6, 5, 4, 3, 2, 1, 0]
    ⟨c2Layer, 256⟩ ⟨c2Layer, 256⟩
    (c2_skip 11)
  have hy10 := scanYs_cons_ok c2Item 0 10 [9, 8, 7, 6, 5, 4, 3, 2, 1, 0]
    ⟨c2Layer, 256⟩ ⟨c2Layer, 256⟩
    (c2_skip 10)
  have hy9 := scanYs_cons_ok c2Item 0 9 [8, 7, 6, 5, 4, 3, 2, 1, 0]
    ⟨c2Layer, 256⟩ ⟨c2Layer, 256⟩
    (c2_skip 9)
  have hy8 := scanYs_cons_ok c2Item 0 8 [7, 6, 5, 4, 3, 2, 1, 0]
    ⟨c2Layer, 256⟩ ⟨c2Layer, 256⟩
    (c2_skip 8)
  have hy7 := scanYs_cons_ok c2Item 0 7 [6, 5, 4, 3, 2, 1, 0]
    ⟨c2Layer, 256⟩ ⟨c2Layer, 256⟩
    (c2_skip 7)
  have hy6 := scanYs_cons_ok c2Item 0 6 [5, 4, 3, 2, 1, 0]
    ⟨c2Layer, 256⟩ ⟨c2Layer, 256⟩
    (c2_skip 6)
  have hy5 := scanYs_cons_ok c2Item 0 5 [4, 3, 2, 1, 0]
    ⟨c2Layer, 256⟩ ⟨c2Layer, 256⟩
    (c2_skip 5)
  have hy4 := scanYs_cons_ok c2Item 0 4 [3, 2, 1, 0]
    ⟨c2Layer, 256⟩ ⟨c2Layer, 256⟩
    (c2_skip 4)
  have hy3 := scanYs_cons_ok c2Item 0 3 [2, 1, 0]
    ⟨c2Layer, 256⟩ ⟨c2Layer, 256⟩
    (c2_skip 3)
  have hy2 := scanYs_cons_ok c2Item 0 2 [1, 0]
    ⟨c2Layer, 256⟩ ⟨c2Layer, 256⟩
    (c2_skip 2)
  have hy1 := scanYs_cons_ok c2Item 0 1 [0]
    ⟨c2Layer, 256⟩ ⟨c2Layer, 256⟩
    (c2_skip 1)
  have hy0 := scanYs_cons_ok c2Item 0 0 []
    ⟨c2Layer, 256⟩ ⟨c2Layer, 256⟩
    (c2_skip 0)
  have hys := hy15.trans (hy14.trans (hy13.trans (hy12.trans (hy11.trans (hy10.trans (hy9.trans (hy8.trans (hy7.trans (hy6.trans (hy5.trans (hy4.trans (hy3.trans (hy2.trans (hy1.trans (hy0.trans (scanYs_nil_eq c2Item 0 ⟨c2Layer, 256⟩))))))))))))))))
  have hss := (scanSections_cons_ok 0 c2Item [] ⟨LayerData.default, 0⟩
    ⟨c2Layer, 256⟩ hys).trans (scanSections_nil_eq ⟨c2Layer, 256⟩)
  exact top_layer_ok_of_scan ((0 : Int), c2Item) [] ⟨c2Layer, 256⟩ hss

/-- C2 witness: the invariant applied to a concrete single-section chunk
whose scan succeeds. -/
theorem top_layer_invariant_witness :
    (top_layer [((0 : Int), c2Item)] = .ok (some c2Layer)) ∧
    (((c2Layer.blocks.getD 0 default).depth.isSome →
        (c2Layer.blocks.getD 0 default).block_type.isSome) ∧
      (∀ t, (c2Layer.blocks.getD 0 default).block_type = some t →
        t.water = false →
        ∃ (sy : Int) (item : SectionItem) (y : Nat),
          (sy, item) ∈ [((0 : Int), c2Item)] ∧ y < 16 ∧
          (c2Layer.blocks.getD 0 default).depth = some (sy * 16 + (y : Int)) ∧
          item.block_at ⟨0 % 16, 0 / 16, y⟩ = Except.ok (some t))) :=
  ⟨c2_top_layer, top_layer_invariant [((0 : Int), c2Item)] c2Layer c2_top_layer 0⟩

/-- The C3 scenario section: column (5,5) (cell index 85) has sand at
y = 0..3, water at y = 4..8 and air at y = 9..15; every other column is
stone at y = 15 only. -/
def c3Item : SectionItem where
  block_at := fun c => .ok (
    if c.z * 16 + c.x = 85 then
      if c.y ≤ 3 then some ⟨true, false⟩
      else if c.y ≤ 8 then some ⟨true, true⟩
      else none
    else if c.y = 15 then some ⟨true, false⟩ else none)
  biome_at := fun _ _ => .ok none
  block_light_at := fun _ => 0

/-- The layer the C3 chunk scans to. -/
def c3Layer : LayerData :=
  ⟨(List.replicate 256 (⟨some ⟨true, false⟩, some 15⟩ : BlockInfo)).set 85
      ⟨some ⟨true, true⟩, some 3⟩,
    List.replicate 256 none, List.replicate 256 0⟩

set_option maxHeartbeats 16000000 in
lemma c3_row15_chunk1 : scanCells c3Item 0 15 (List.range' 0 64)
    ⟨LayerData.default, 0⟩ = .ok (row15Partial 64) := by decide

set_option maxHeartbeats 16000000 in
lemma c3_row15_chunk2 : scanCells c3Item 0 15 (List.range' 64 64)
    (row15Partial 64) = .ok (c3Row15Mid 128) := by decide

set_option maxHeartbeats 16000000 in
lemma c3_row15_chunk3 : scanCells c3Item 0 15 (List.range' 128 64)
    (c3Row15Mid 128) = .ok (c3Row15Mid 192) := by decide

set_option maxHeartbeats 16000000 in
lemma c3_row15_chunk4 : scanCells c3Item 0 15 (List.range' 192 64)
    (c3Row15Mid 192) = .ok (rowState ⟨none, none⟩ 255) := by decide

lemma c3_row15 : scanCells c3Item 0 15 (List.range 256) ⟨LayerData.default, 0⟩ =
    .ok (rowState ⟨none, none⟩ 255) := by
  have e0 : scanCells c3Item 0 15 (List.range 256) ⟨LayerData.default, 0⟩ =
      scanCells c3Item 0 15 (List.range' 0 64 ++ (List.range' 64 64 ++
        (List.range' 128 64 ++ List.range' 192 64))) ⟨LayerData.default, 0⟩ := by
    rw [range256_chunks]
  have e1 := scanCells_append_no_brk c3Item 0 15 (List.range' 0 64)
    (List.range' 64 64 ++ (List.range' 128 64 ++ List.range' 192 64))
    ⟨LayerData.default, 0⟩ (row15Partial 64) c3_row15_chunk1 (by decide)
  have e2 := scanCells_append_no_brk c3Item 0 15 (List.range' 64 64)
    (List.range' 128 64 ++ List.range' 192 64)
    (row15Partial 64) (c3Row15Mid 128) c3_row15_chunk2 (by decide)
  have e3 := scanCells_append_no_brk c3Item 0 15 (List.range' 128 64)
    (List.range' 192 64) (c3Row15Mid 128) (c3Row15Mid 192)
    c3_row15_chunk3 (by decide)
  exact e0.trans (e1.trans (e2.trans (e3.trans c3_row15_chunk4)))

lemma c3_row_air (y : Nat) (h9 : 9 ≤ y) (h14 : y ≤ 14) :
    scanCells c3Item 0 y (List.range 256) (rowState ⟨none, none⟩ 255) =
      .ok (rowState ⟨none, none⟩ 255) := by
  apply scanCells_single_pending
  · exact fun i hi hne => rowState_done_ne _ _ i hi hne
  · exact fun i hi hne => rowState_done_ne _ _ i hi hne
  · interval_cases y <;> decide

lemma c3_row8 : scanCells c3Item 0 8 (List.range 256) (rowState ⟨none, none⟩ 255) =
    .ok (rowState ⟨some ⟨true, true⟩, none⟩ 255) := by
  apply scanCells_single_pending
  · exact fun i hi hne => rowState_done_ne _ _ i hi hne
  · exact fun i hi hne => rowState_done_ne _ _ i hi hne
  · decide

lemma c3_row_water (y : Nat) (h4 : 4 ≤ y) (h7 : y ≤ 7) :
    scanCells c3Item 0 y (List.range 256) (rowState ⟨some ⟨true, true⟩, none⟩ 255) =
      .ok (rowState ⟨some ⟨true, true⟩, none⟩ 255) := by
  apply scanCells_single_pending
  · exact fun i hi hne => rowState_done_ne _ _ i hi hne
  · exact fun i hi hne => rowState_done_ne _ _ i hi hne
  · interval_cases y <;> decide

lemma c3_row3 : scanCells c3Item 0 3 (List.range 256)
    (rowState ⟨some ⟨true, true⟩, none⟩ 255) =
    .ok (rowState ⟨some ⟨true, true⟩, some 3⟩ 256) := by
  apply scanCells_single_pending_brk
  · exact fun i hi hne => rowState_done_ne _ _ i hi hne
  · decide

lemma c3_row_done (y : Nat) :
    scanCells c3Item 0 y (List.range 256) (rowState ⟨some ⟨true, true⟩, some 3⟩ 256) =
      .ok (rowState ⟨some ⟨true, true⟩, some 3⟩ 256) :=
  scanCells_skip _ _ _ _ _ (rowState_all_done _ _ rfl)

lemma c3_top_layer : top_layer [((0 : Int), c3Item)] = .ok (some c3Layer) := by
  have hy15 := scanYs_cons_ok c3Item 0 15 [14, 13, 12, 11, 10, 9, 8, 7, 6, 5, 4, 3, 2, 1, 0]
    ⟨LayerData.default, 0⟩ (rowState ⟨none, none⟩ 255)
    (c3_row15)
  have hy14 := scanYs_cons_ok c3Item 0 14 [13, 12, 11, 10, 9, 8, 7, 6, 5, 4, 3, 2, 1, 0]
    (rowState ⟨none, none⟩ 255) (rowState ⟨none, none⟩ 255)
    (c3_row_air 14 (by omega) (by omega))
  have hy13 := scanYs_cons_ok c3Item 0 13 [12, 11, 10, 9, 8, 7, 6, 5, 4, 3, 2, 1, 0]
    (rowState ⟨none, none⟩ 255) (rowState ⟨none, none⟩ 255)
    (c3_row_air 13 (by omega) (by omega))
  have hy12 := scanYs_cons_ok c3Item 0 12 [11, 10, 9, 8, 7, 6, 5, 4, 3, 2, 1, 0]
    (rowState ⟨none, none⟩ 255) (rowState ⟨none, none⟩ 255)
    (c3_row_air 12 (by omega) (by omega))
  have hy11 := scanYs_cons_ok c3Item 0 11 [10, 9, 8, 7, 6, 5, 4, 3, 2, 1, 0]
    (rowState ⟨none, none⟩ 255) (rowState ⟨none, none⟩ 255)
    (c3_row_air 11 (by omega) (by omega))
  have hy10 := scanYs_cons_ok c3Item 0 10 [9, 8, 7, 6, 5, 4, 3, 2, 1, 0]
    (rowState ⟨none, none⟩ 255) (rowState ⟨none, none⟩ 255)
    (c3_row_air 10 (by omega) (by omega))
  have hy9 := scanYs_cons_ok c3Item 0 9 [8, 7, 6, 5, 4, 3, 2, 1, 0]
    (rowState ⟨none, none⟩ 255) (rowState ⟨none, none⟩ 255)
    (c3_row_air 9 (by omega) (by omega))
  have hy8 := scanYs_cons_ok c3Item 0 8 [7, 6, 5, 4, 3, 2, 1, 0]
    (rowState ⟨none, none⟩ 255) (rowState ⟨some ⟨true, true⟩, none⟩ 255)
    (c3_row8)
  have hy7 := scanYs_cons_ok c3Item 0 7 [6, 5, 4, 3, 2, 1, 0]
    (rowState ⟨some ⟨true, true⟩, none⟩ 255) (rowState ⟨some ⟨true, true⟩, none⟩ 255)
    (c3_row_water 7 (by omega) (by omega))
  have hy6 := scanYs_cons_ok c3Item 0 6 [5, 4, 3, 2, 1, 0]
    (rowState ⟨some ⟨true, true⟩, none⟩ 255) (rowState ⟨some ⟨true, true⟩, none⟩ 255)
    (c3_row_water 6 (by omega) (by omega))
  have hy5 := scanYs_cons_ok c3Item 0 5 [4, 3, 2, 1, 0]
    (rowState ⟨some ⟨true, true⟩, none⟩ 255) (rowState ⟨some ⟨true, true⟩, none⟩ 255)
    (c3_row_water 5 (by omega) (by omega))
  have hy4 := scanYs_cons_ok c3Item 0 4 [3, 2, 1, 0]
    (rowState ⟨some ⟨true, true⟩, none⟩ 255) (rowState ⟨some ⟨true, true⟩, none⟩ 255)
    (c3_row_water 4 (by omega) (by omega))
  have hy3 := scanYs_cons_ok c3Item 0 3 [2, 1, 0]
    (rowState ⟨some ⟨true, true⟩, none⟩ 255) (rowState ⟨some ⟨true, true⟩, some 3⟩ 256)
    (c3_row3)
  have hy2 := scanYs_cons_ok c3Item 0 2 [1, 0]
    (rowState ⟨some ⟨true, true⟩, some 3⟩ 256) (rowState ⟨some ⟨true, true⟩, some 3⟩ 256)
    (c3_row_done 2)
  have hy1 := scanYs_cons_ok c3Item 0 1 [0]
    (rowState ⟨some ⟨true, true⟩, some 3⟩ 256) (rowState ⟨some ⟨true, true⟩, some 3⟩ 256)
    (c3_row_done 1)
  have hy0 := scanYs_cons_ok c3Item 0 0 []
    (rowState ⟨some ⟨true, true⟩, some 3⟩ 256) (rowState ⟨some ⟨true, true⟩, some 3⟩ 256)
    (c3_row_done 0)
  have hys := hy15.trans (hy14.trans (hy13.trans (hy12.trans (hy11.trans (hy10.trans (hy9.trans (hy8.trans (hy7.trans (hy6.trans (hy5.trans (hy4.trans (hy3.trans (hy2.trans (hy1.trans (hy0.trans (scanYs_nil_eq c3Item 0 (rowState ⟨some ⟨true, true⟩, some 3⟩ 256)))))))))))))))))
  have hss := (scanSections_cons_ok 0 c3Item [] ⟨LayerData.default, 0⟩
    (rowState ⟨some ⟨true, true⟩, some 3⟩ 256) hys).trans
    (scanSections_nil_eq (rowState ⟨some ⟨true, true⟩, some 3⟩ 256))
  exact top_layer_ok_of_scan ((0 : Int), c3Item) []
    (rowState ⟨some ⟨true, true⟩, some 3⟩ 256) hss

/-- C3: scanning a chunk with one populated section at section-Y 0 whose
column (5,5) is sand at y 0..3, water at y 4..8 and air above yields, for
cell (5,5), block type water and depth 3 — the height of the topmost sand
block. -/
theorem water_over_sand_scenario :
    top_layer [((0 : Int), c3Item)] = .ok (some c3Layer) ∧
    (c3Layer.blocks.getD 85 default).block_type = some ⟨true, true⟩ ∧
    (c3Layer.blocks.getD 85 default).depth = some (3 : Int) := by
  refine ⟨c3_top_layer, by decide, by decide⟩

end MinedMap
